import Mathlib

/-!
Verification development for `tfx/orchestration/portable/execution_publish_utils.py`.

The Python module registers and publishes pipeline executions against an MLMD
metadata store.  The definitions below are a shallow embedding of that module:

* pure data (`ArtifactRecord`, `Execution`, …) models the protobuf records;
* channel mappings (`Channels`) model Python's insertion-ordered dicts as
  association lists iterated in list order;
* in-place mutation of the caller's `output_artifacts` mapping is modelled by
  explicit state passing: each operation returns the mapping as the caller
  observes it when control returns (normally or via a raised exception);
* the external store (`ml_metadata` / `execution_lib`, not part of the
  embedded source file) is modelled from the spec, with `Modelled from the
  spec:` doc comments on the corresponding definitions.
-/

/-- MLMD artifact lifecycle state (`metadata_store_pb2.Artifact.State`). -/
inductive ArtifactState where
  | UNKNOWN
  | PENDING
  | LIVE
  | MARKED_FOR_DELETION
  | DELETED
deriving DecidableEq, Repr

/-- MLMD execution lifecycle state (`metadata_store_pb2.Execution.State`). -/
inductive ExecutionState where
  | UNKNOWN
  | NEW
  | RUNNING
  | COMPLETE
  | FAILED
  | CACHED
  | CANCELED
deriving DecidableEq, Repr

/-- MLMD event role (`metadata_store_pb2.Event.Type`), restricted to the roles
this module uses. -/
inductive EventType where
  | INPUT
  | OUTPUT
  | INTERNAL_OUTPUT
deriving DecidableEq, Repr

/-- The backing record of an artifact (`metadata_store_pb2.Artifact`): store id
(`0` = unset, as in proto3), type id, payload reference (uri), custom
properties, and lifecycle state.  A TFX `types.Artifact` wrapper is identified
with its `mlmd_artifact` record, which is the only part this module touches. -/
structure ArtifactRecord where
  id : Nat
  type_id : Nat
  uri : String
  properties : List (String × String)
  state : ArtifactState
deriving DecidableEq, Repr

/-- An output mapping: channel name to ordered artifact sequence, in dict
insertion order. -/
abbrev Channels := List (String × List ArtifactRecord)

/-- `execution_result_pb2.ExecutorOutput`, flattened to the only field the
module reads: `output_artifacts`, each channel's `ArtifactList.artifacts`. -/
structure ExecutorOutput where
  output_artifacts : Channels
deriving DecidableEq, Repr

/-- An MLMD context; opaque to this module, which only forwards it. -/
structure Context where
  id : Nat
deriving DecidableEq, Repr

/-- An MLMD execution record (`metadata_store_pb2.Execution`): store id (`0` =
unset), type id, lifecycle state, properties. -/
structure Execution where
  id : Nat
  type_id : Nat
  last_known_state : ExecutionState
  properties : List (String × String)
deriving DecidableEq, Repr

/-- Dict lookup `m[k]` on a channel mapping (first matching key). -/
def lookupKey : Channels → String → Option (List ArtifactRecord)
  | [], _ => none
  | p :: rest, k => if p.1 = k then some p.2 else lookupKey rest k

/-- Dict membership test `k in m` on a channel mapping. -/
def containsKey (m : Channels) (k : String) : Bool :=
  (lookupKey m k).isSome

/-- The errors this module can raise.  In Python all merge violations are
`RuntimeError`s distinguished by their message (unknown channel / partial
channel update / type change), and a failed `[execution] = ...` destructuring
raises on a non-singleton result; the spec's taxonomy names the latter
`NotFoundError`.  `UnknownChannel` carries the executor-output mapping and the
skeleton mapping, as the Python message interpolates both. -/
inductive PublishError where
  | UnknownChannel (report : Channels) (skeleton : Channels)
  | PartialChannelUpdate
  | TypeMismatch
  | NotFound
deriving DecidableEq, Repr

/-- The inner pair loop of `publish_succeeded_execution` (source lines
100-103): `for original, updated in zip(artifact_list, updated_artifact_list)`.
On a `type_id` mismatch it raises immediately, leaving the current and later
artifacts untouched; otherwise `original.mlmd_artifact.CopyFrom(updated)`
replaces the skeleton artifact's whole backing record with the reported one.
Returns the artifact list as mutated when control leaves the loop, plus the
raised error if any. -/
def mergeArtifactPairs : List ArtifactRecord → List ArtifactRecord →
    List ArtifactRecord × Option PublishError
  | original :: os, updated :: us =>
    if original.type_id ≠ updated.type_id then
      (original :: os, some PublishError.TypeMismatch)
    else
      ((updated :: (mergeArtifactPairs os us).1), (mergeArtifactPairs os us).2)
  | os, _ => (os, none)

/-- The outer channel loop of `publish_succeeded_execution` (source lines
92-103): iterate the skeleton mapping in order; skip channels absent from the
report; raise on a channel length mismatch; otherwise run the pair loop.
Returns the skeleton mapping as mutated when control leaves the loop, plus the
raised error if any. -/
def mergeChannels (report : Channels) : Channels → Channels × Option PublishError
  | [] => ([], none)
  | (key, artifact_list) :: rest =>
    match lookupKey report key with
    | none =>
      ((key, artifact_list) :: (mergeChannels report rest).1,
       (mergeChannels report rest).2)
    | some updated_artifact_list =>
      if artifact_list.length ≠ updated_artifact_list.length then
        ((key, artifact_list) :: rest, some PublishError.PartialChannelUpdate)
      else
        match (mergeArtifactPairs artifact_list updated_artifact_list).2 with
        | some err =>
          ((key, (mergeArtifactPairs artifact_list updated_artifact_list).1) :: rest,
           some err)
        | none =>
          ((key, (mergeArtifactPairs artifact_list updated_artifact_list).1) ::
             (mergeChannels report rest).1,
           (mergeChannels report rest).2)

/-- The merge block of `publish_succeeded_execution` (source lines 86-103):
no-op when no executor output was supplied; otherwise the subset check over
channel names (raising before any mutation), then the channel loop. -/
def mergeOutputArtifacts (output_artifacts : Channels)
    (executor_output : Option ExecutorOutput) : Channels × Option PublishError :=
  match executor_output with
  | none => (output_artifacts, none)
  | some eo =>
    if ¬ (eo.output_artifacts.all (fun p => containsKey output_artifacts p.1)) then
      (output_artifacts,
       some (PublishError.UnknownChannel eo.output_artifacts output_artifacts))
    else
      mergeChannels eo.output_artifacts output_artifacts

/-- `artifact.mlmd_artifact.state = metadata_store_pb2.Artifact.LIVE` on one
artifact: only the `state` field changes. -/
def setLive (a : ArtifactRecord) : ArtifactRecord :=
  { a with state := ArtifactState.LIVE }

/-- The LIVE-marking loop of `publish_succeeded_execution` (source lines
105-108): every artifact of every channel gets `state := LIVE`. -/
def markArtifactsLive (m : Channels) : Channels :=
  m.map (fun p => (p.1, p.2.map setLive))

/-- One atomic write issued to the store adapter: the execution as persisted,
the contexts to associate, the artifact mappings to link (inputs with INPUT
events, outputs with `output_event_type` events). -/
structure PutRecord where
  execution : Execution
  contexts : List Context
  input_artifacts : Channels
  output_artifacts : Channels
  output_event_type : EventType
deriving DecidableEq, Repr

/-- Modelled from the spec: the external metadata store (§4.3).  It holds the
stored executions, an id generator, and the ordered log of atomic put
operations it has served. -/
structure MetadataStore where
  executions : List Execution
  next_execution_id : Nat
  puts : List PutRecord
deriving DecidableEq, Repr

/-- Modelled from the spec: `metadata_handler.store.get_executions_by_id`
(external `ml_metadata` collaborator) returns the stored executions whose id
is among the requested ids, without failing on misses. -/
def get_executions_by_id (store : MetadataStore) (ids : List Nat) : List Execution :=
  store.executions.filter (fun e => ids.contains e.id)

/-- Modelled from the spec: `execution_lib.put_execution` is code of this
repository that is not under src/.  Per §4.3 it atomically persists the
execution (assigning a fresh positive store id when none is set), creates the
context associations and the event links for the given artifact mappings, and
returns the persisted execution.  The write is recorded as one `PutRecord`. -/
def put_execution (store : MetadataStore) (execution : Execution)
    (contexts : List Context) (input_artifacts : Channels)
    (output_artifacts : Channels) (output_event_type : EventType) :
    MetadataStore × Execution :=
  let assigned :=
    if execution.id = 0 then
      { execution with id := store.next_execution_id + 1 }
    else execution
  let next :=
    if execution.id = 0 then store.next_execution_id + 1
    else store.next_execution_id
  ({ executions :=
       if store.executions.any (fun e => e.id == assigned.id) then
         store.executions.map (fun e => if e.id == assigned.id then assigned else e)
       else store.executions ++ [assigned],
     next_execution_id := next,
     puts := store.puts ++
       [{ execution := assigned, contexts := contexts,
          input_artifacts := input_artifacts,
          output_artifacts := output_artifacts,
          output_event_type := output_event_type }] },
   assigned)

/-- Modelled from the spec: `execution_lib.prepare_execution` is code of this
repository that is not under src/.  Per §4.1 it builds a new, unpersisted
execution record of the given type with the given last-known state and
properties; no store id is assigned yet. -/
def prepare_execution (execution_type : Nat) (state : ExecutionState)
    (exec_properties : List (String × String)) : Execution :=
  { id := 0, type_id := execution_type, last_known_state := state,
    properties := exec_properties }

/-- `publish_cached_execution` (source lines 25-49): destructure the lookup by
id (raising when not exactly one match), set `last_known_state := CACHED`,
and put with the given outputs and no inputs. -/
def publish_cached_execution (store : MetadataStore) (contexts : List Context)
    (execution_id : Nat) (output_artifacts : Option Channels) :
    MetadataStore × Option PublishError :=
  match get_executions_by_id store [execution_id] with
  | [execution] =>
    ((put_execution store { execution with last_known_state := ExecutionState.CACHED }
        contexts [] (output_artifacts.getD []) EventType.OUTPUT).1, none)
  | _ => (store, some PublishError.NotFound)

/-- `publish_succeeded_execution` (source lines 52-114): default the skeleton
to empty, run the merge block, mark every artifact LIVE, then look up the
execution (only now), set `COMPLETE` and put.  The middle component of the
result is the caller's `output_artifacts` mapping as observable when the call
returns or raises — the Python code mutates it in place and never rolls the
mutations back. -/
def publish_succeeded_execution (store : MetadataStore) (execution_id : Nat)
    (contexts : List Context) (output_artifacts : Option Channels)
    (executor_output : Option ExecutorOutput) :
    MetadataStore × Channels × Option PublishError :=
  match mergeOutputArtifacts (output_artifacts.getD []) executor_output with
  | (arts, some err) => (store, arts, some err)
  | (arts, none) =>
    match get_executions_by_id store [execution_id] with
    | [execution] =>
      ((put_execution store { execution with last_known_state := ExecutionState.COMPLETE }
          contexts [] (markArtifactsLive arts) EventType.OUTPUT).1,
       markArtifactsLive arts, none)
    | _ => (store, markArtifactsLive arts, some PublishError.NotFound)

/-- `publish_failed_execution` (source lines 117-130): destructure the lookup,
set `FAILED`, and put with no artifact mappings at all (no events created). -/
def publish_failed_execution (store : MetadataStore) (contexts : List Context)
    (execution_id : Nat) : MetadataStore × Option PublishError :=
  match get_executions_by_id store [execution_id] with
  | [execution] =>
    ((put_execution store { execution with last_known_state := ExecutionState.FAILED }
        contexts [] [] EventType.OUTPUT).1, none)
  | _ => (store, some PublishError.NotFound)

/-- `publish_internal_execution` (source lines 133-157): destructure the
lookup, set `COMPLETE`, and put the outputs with INTERNAL_OUTPUT events.  Note
the source performs no merge and no LIVE marking here. -/
def publish_internal_execution (store : MetadataStore) (contexts : List Context)
    (execution_id : Nat) (output_artifacts : Option Channels) :
    MetadataStore × Option PublishError :=
  match get_executions_by_id store [execution_id] with
  | [execution] =>
    ((put_execution store { execution with last_known_state := ExecutionState.COMPLETE }
        contexts [] (output_artifacts.getD []) EventType.INTERNAL_OUTPUT).1, none)
  | _ => (store, some PublishError.NotFound)

/-- `register_execution` (source lines 160-189): prepare a new execution in
state RUNNING with the given properties, then put it with the inputs linked
via INPUT events; returns the persisted execution. -/
def register_execution (store : MetadataStore) (execution_type : Nat)
    (contexts : List Context) (input_artifacts : Option Channels)
    (exec_properties : List (String × String)) : MetadataStore × Execution :=
  put_execution store
    (prepare_execution execution_type ExecutionState.RUNNING exec_properties)
    contexts (input_artifacts.getD []) [] EventType.OUTPUT

/-! ### Statement helpers

Predicates used to state the theorems below; they are not part of the embedded
source. -/

/-- Every artifact of every channel of the mapping is LIVE. -/
def allLive (m : Channels) : Prop :=
  ∀ p ∈ m, ∀ a ∈ p.2, a.state = ArtifactState.LIVE

/-- The fully merged form of one skeleton channel: its artifact list replaced
by the reported one when the channel is shared, untouched otherwise. -/
def mergedChannel (report : Channels) (p : String × List ArtifactRecord) :
    String × List ArtifactRecord :=
  match lookupKey report p.1 with
  | some us => (p.1, us)
  | none => p

/-- A shared channel whose skeleton and reported lengths agree (non-shared
channels pass vacuously). -/
def sharedLengthsOk (report : Channels) (p : String × List ArtifactRecord) : Bool :=
  match lookupKey report p.1 with
  | some us => p.2.length == us.length
  | none => true

/-- A shared channel whose skeleton and reported lengths differ. -/
def sharedLengthMismatch (report : Channels) (p : String × List ArtifactRecord) : Bool :=
  match lookupKey report p.1 with
  | some us => p.2.length != us.length
  | none => false

/-- A shared channel that cannot fail the pair-wise type check: either its
lengths already differ (so the pair loop is never reached) or every positional
pair's type ids agree. -/
def sharedTypesOk (report : Channels) (p : String × List ArtifactRecord) : Bool :=
  match lookupKey report p.1 with
  | some us =>
    (p.2.length != us.length) || (p.2.zip us).all (fun q => q.1.type_id == q.2.type_id)
  | none => true

/-- A shared channel with a positional pair whose type ids differ. -/
def sharedTypeMismatch (report : Channels) (p : String × List ArtifactRecord) : Bool :=
  match lookupKey report p.1 with
  | some us => (p.2.zip us).any (fun q => q.1.type_id != q.2.type_id)
  | none => false

/-! ### Concrete fixtures used by counterexamples and witnesses -/

/-- A skeleton artifact with an already-assigned store id. -/
def artA : ArtifactRecord := ⟨7, 1, "skel", [], ArtifactState.PENDING⟩

/-- An executor-reported artifact of the same type, no id set. -/
def artB : ArtifactRecord := ⟨0, 1, "gs", [], ArtifactState.UNKNOWN⟩

/-- An executor-reported artifact of a different type. -/
def artC : ArtifactRecord := ⟨0, 2, "gs2", [], ArtifactState.UNKNOWN⟩

/-- A store holding exactly one execution, id 1, in state RUNNING. -/
def store1 : MetadataStore := ⟨[⟨1, 0, ExecutionState.RUNNING, []⟩], 5, []⟩

/-! ### Lemmas about the merge loops -/

/-- When every positional pair type-checks and the lengths agree, the pair
loop copies the reported records wholesale and raises nothing. -/
theorem mergeArtifactPairs_of_all_types_eq : ∀ (os us : List ArtifactRecord),
    os.length = us.length →
    (∀ q ∈ os.zip us, q.1.type_id = q.2.type_id) →
    mergeArtifactPairs os us = (us, none)
  | [], [], _, _ => rfl
  | [], _ :: _, hlen, _ => by simp at hlen
  | _ :: _, [], hlen, _ => by simp at hlen
  | o :: os, u :: us, hlen, htype => by
    have h0 : o.type_id = u.type_id := htype (o, u) (by simp)
    have ih := mergeArtifactPairs_of_all_types_eq os us (by simpa using hlen)
      (fun q hq => htype q (by simp [hq]))
    simp [mergeArtifactPairs, h0, ih]

/-- If the pair loop finished without raising and the lengths agree, the
artifact list now holds exactly the reported records. -/
theorem mergeArtifactPairs_fst_of_none : ∀ (os us : List ArtifactRecord),
    os.length = us.length → (mergeArtifactPairs os us).2 = none →
    (mergeArtifactPairs os us).1 = us
  | [], [], _, _ => rfl
  | [], _ :: _, hlen, _ => by simp at hlen
  | _ :: _, [], hlen, _ => by simp at hlen
  | o :: os, u :: us, hlen, hnone => by
    by_cases h0 : o.type_id = u.type_id
    · have ih := mergeArtifactPairs_fst_of_none os us (by simpa using hlen)
        (by simpa [mergeArtifactPairs, h0] using hnone)
      simp [mergeArtifactPairs, h0, ih]
    · simp [mergeArtifactPairs, h0] at hnone

/-- A positional pair with differing type ids makes the pair loop raise the
type-mismatch error. -/
theorem mergeArtifactPairs_snd_of_mismatch : ∀ (os us : List ArtifactRecord),
    (∃ q ∈ os.zip us, q.1.type_id ≠ q.2.type_id) →
    (mergeArtifactPairs os us).2 = some PublishError.TypeMismatch
  | [], us, hex => by simp at hex
  | _ :: _, [], hex => by simp at hex
  | o :: os, u :: us, hex => by
    by_cases h0 : o.type_id = u.type_id
    · have hex2 : ∃ q ∈ os.zip us, q.1.type_id ≠ q.2.type_id := by
        obtain ⟨q, hq, hne⟩ := hex
        rcases List.mem_cons.1 (by simpa using hq) with h | h
        · exact absurd (by simp [h, h0]) hne
        · exact ⟨q, h, hne⟩
      have ih := mergeArtifactPairs_snd_of_mismatch os us hex2
      simp [mergeArtifactPairs, h0, ih]
    · simp [mergeArtifactPairs, h0]

/-- If the channel loop finished without raising, the skeleton mapping now
holds, channel by channel, the fully merged form. -/
theorem mergeChannels_fst_of_none : ∀ (report sk : Channels),
    (mergeChannels report sk).2 = none →
    (mergeChannels report sk).1 = sk.map (mergedChannel report)
  | _, [], _ => rfl
  | report, (k, as) :: rest, hnone => by
    cases hlk : lookupKey report k with
    | none =>
      have h2 : (mergeChannels report rest).2 = none := by
        simpa [mergeChannels, hlk] using hnone
      have ih := mergeChannels_fst_of_none report rest h2
      simp [mergeChannels, hlk, ih, mergedChannel]
    | some us =>
      by_cases hlen : as.length = us.length
      · cases hm : (mergeArtifactPairs as us).2 with
        | some err => simp [mergeChannels, hlk, hlen, hm] at hnone
        | none =>
          have h2 : (mergeChannels report rest).2 = none := by
            simpa [mergeChannels, hlk, hlen, hm] using hnone
          have ih := mergeChannels_fst_of_none report rest h2
          have hfst := mergeArtifactPairs_fst_of_none as us hlen hm
          simp [mergeChannels, hlk, hlen, hm, ih, hfst, mergedChannel]
      · simp [mergeChannels, hlk, hlen] at hnone

/-- If the channel loop raised, the skeleton mapping splits into a fully
merged front part (the channels iterated before the failure), the failing
channel with some intermediate artifact list, and an untouched tail. -/
theorem mergeChannels_err_split : ∀ (report sk sk2 : Channels) (err : PublishError),
    mergeChannels report sk = (sk2, some err) →
    ∃ front p post as2,
      sk = front ++ p :: post ∧
      sk2 = front.map (mergedChannel report) ++ (p.1, as2) :: post
  | _, [], _, _, h => by simp [mergeChannels] at h
  | report, (k, as) :: rest, sk2, err, h => by
    cases hlk : lookupKey report k with
    | none =>
      simp only [mergeChannels, hlk] at h
      injection h with h1 h2
      have hrec : mergeChannels report rest = ((mergeChannels report rest).1, some err) := by
        rw [← h2]
      obtain ⟨front, p, post, as2, hsk, hsk2⟩ :=
        mergeChannels_err_split report rest (mergeChannels report rest).1 err hrec
      refine ⟨(k, as) :: front, p, post, as2, by simp [hsk], ?_⟩
      rw [← h1]
      simp [hsk2, mergedChannel, hlk]
    | some us =>
      by_cases hlen : as.length = us.length
      · simp only [mergeChannels, hlk] at h
        rw [if_neg (by omega)] at h
        cases hm : (mergeArtifactPairs as us).2 with
        | some e =>
          simp only [hm] at h
          injection h with h1 h2
          exact ⟨[], (k, as), rest, (mergeArtifactPairs as us).1, by simp,
            by rw [← h1]; simp⟩
        | none =>
          simp only [hm] at h
          injection h with h1 h2
          have hrec : mergeChannels report rest = ((mergeChannels report rest).1, some err) := by
            rw [← h2]
          obtain ⟨front, p, post, as2, hsk, hsk2⟩ :=
            mergeChannels_err_split report rest (mergeChannels report rest).1 err hrec
          refine ⟨(k, as) :: front, p, post, as2, by simp [hsk], ?_⟩
          rw [← h1]
          simp [hsk2, mergeArtifactPairs_fst_of_none as us hlen hm, mergedChannel, hlk]
      · simp only [mergeChannels, hlk] at h
        rw [if_pos hlen] at h
        injection h with h1 h2
        exact ⟨[], (k, as), rest, as, by simp, by rw [← h1]; simp⟩

/-- With every shared channel unable to fail the type check, a shared channel
with mismatched lengths makes the channel loop raise the
partial-channel-update error. -/
theorem mergeChannels_snd_of_len_mismatch : ∀ (report sk : Channels),
    sk.all (sharedTypesOk report) = true →
    sk.any (sharedLengthMismatch report) = true →
    (mergeChannels report sk).2 = some PublishError.PartialChannelUpdate
  | report, [], _, hany => by simp at hany
  | report, (k, as) :: rest, hall, hany => by
    simp only [List.all_cons, Bool.and_eq_true] at hall
    simp only [List.any_cons, Bool.or_eq_true] at hany
    cases hlk : lookupKey report k with
    | none =>
      have hany2 : rest.any (sharedLengthMismatch report) = true := by
        rcases hany with h | h
        · simp [sharedLengthMismatch, hlk] at h
        · exact h
      have ih := mergeChannels_snd_of_len_mismatch report rest hall.2 hany2
      simp [mergeChannels, hlk, ih]
    | some us =>
      by_cases hlen : as.length = us.length
      · have htypes : ∀ q ∈ as.zip us, q.1.type_id = q.2.type_id := by
          have h1 := hall.1
          simp only [sharedTypesOk, hlk, Bool.or_eq_true] at h1
          rcases h1 with h1 | h1
          · simp [hlen] at h1
          · intro q hq
            simpa using List.all_eq_true.1 h1 q hq
        have hpairs := mergeArtifactPairs_of_all_types_eq as us hlen htypes
        have hany2 : rest.any (sharedLengthMismatch report) = true := by
          rcases hany with h | h
          · simp [sharedLengthMismatch, hlk, hlen] at h
          · exact h
        have ih := mergeChannels_snd_of_len_mismatch report rest hall.2 hany2
        simp [mergeChannels, hlk, hlen, hpairs, ih]
      · simp [mergeChannels, hlk, hlen]

/-- With every shared channel's lengths agreeing, a shared channel with a
type-mismatched positional pair makes the channel loop raise the
type-mismatch error. -/
theorem mergeChannels_snd_of_type_mismatch : ∀ (report sk : Channels),
    sk.all (sharedLengthsOk report) = true →
    sk.any (sharedTypeMismatch report) = true →
    (mergeChannels report sk).2 = some PublishError.TypeMismatch
  | report, [], _, hany => by simp at hany
  | report, (k, as) :: rest, hall, hany => by
    simp only [List.all_cons, Bool.and_eq_true] at hall
    simp only [List.any_cons, Bool.or_eq_true] at hany
    cases hlk : lookupKey report k with
    | none =>
      have hany2 : rest.any (sharedTypeMismatch report) = true := by
        rcases hany with h | h
        · simp [sharedTypeMismatch, hlk] at h
        · exact h
      have ih := mergeChannels_snd_of_type_mismatch report rest hall.2 hany2
      simp [mergeChannels, hlk, ih]
    | some us =>
      have hlen : as.length = us.length := by
        have h1 := hall.1
        simpa [sharedLengthsOk, hlk] using h1
      by_cases hmis : ∃ q ∈ as.zip us, q.1.type_id ≠ q.2.type_id
      · have hpairs := mergeArtifactPairs_snd_of_mismatch as us hmis
        simp [mergeChannels, hlk, hlen, hpairs]
      · have htypes : ∀ q ∈ as.zip us, q.1.type_id = q.2.type_id := by
          intro q hq
          by_contra hne
          exact hmis ⟨q, hq, hne⟩
        have hpairs := mergeArtifactPairs_of_all_types_eq as us hlen htypes
        have hany2 : rest.any (sharedTypeMismatch report) = true := by
          rcases hany with h | h
          · simp only [sharedTypeMismatch, hlk] at h
            obtain ⟨q, hq, hne⟩ := List.any_eq_true.1 h
            exact absurd ⟨q, hq, by simpa using hne⟩ hmis
          · exact h
        have ih := mergeChannels_snd_of_type_mismatch report rest hall.2 hany2
        simp [mergeChannels, hlk, hlen, hpairs, ih]

/-- LIVE marking makes every artifact LIVE. -/
theorem allLive_markArtifactsLive (m : Channels) : allLive (markArtifactsLive m) := by
  intro p hp a ha
  simp only [markArtifactsLive, List.mem_map] at hp
  obtain ⟨q, _, rfl⟩ := hp
  simp only [List.mem_map] at ha
  obtain ⟨b, _, rfl⟩ := ha
  rfl

/-- Looking a key up in the fully merged mapping returns the merged form of
the original channel. -/
theorem lookupKey_map_mergedChannel : ∀ (report sk : Channels) (k : String),
    lookupKey (sk.map (mergedChannel report)) k
      = (lookupKey sk k).map (fun as => (mergedChannel report (k, as)).2)
  | _, [], _ => rfl
  | report, (k0, as0) :: rest, k => by
    by_cases h : k0 = k
    · subst h
      cases hlk : lookupKey report k0 with
      | none => simp [lookupKey, mergedChannel, hlk]
      | some us => simp [lookupKey, mergedChannel, hlk]
    · have hfst : (mergedChannel report (k0, as0)).1 = k0 := by
        cases hlk : lookupKey report k0 with
        | none => simp [mergedChannel, hlk]
        | some us => simp [mergedChannel, hlk]
      have ih := lookupKey_map_mergedChannel report rest k
      cases hmc : mergedChannel report (k0, as0) with
      | mk k1 as1 =>
        have hk1 : k1 = k0 := by rw [← hfst, hmc]
        simp [lookupKey, hmc, hk1, h, ih]

/-! ### Claim theorems -/

/-- Claim C1, counterexample: a (skeleton, reported) pair that passes all
three checks does NOT keep the skeleton artifact's store identity.  The
skeleton artifact `artA` has assigned id 7; the reported artifact has id 0;
the merge succeeds (error `none`) and the published record has id 0 — the
whole backing record, id included, was overwritten by `CopyFrom`. -/
theorem merge_drops_preassigned_id :
    artA.id = 7 ∧ artB.id = 0 ∧
    (publish_succeeded_execution store1 1 [⟨9⟩] (some [("model", [artA])])
        (some ⟨[("model", [artB])]⟩)).2
      = ([("model", [⟨0, 1, "gs", [], ArtifactState.LIVE⟩])], none) := by
  decide

/-- Claim C1 (corrected): when a positional pair passes the subset,
completeness and type-stability checks, the skeleton artifact's backing
record is overwritten wholesale from the reported artifact's record — id,
payload, properties and state alike: after a merge that raised nothing, every
channel present in the report holds exactly the reported records. -/
theorem merge_overwrites_record_wholesale (sk sk2 : Channels) (eo : ExecutorOutput)
    (k : String) (as us : List ArtifactRecord)
    (hmerge : mergeOutputArtifacts sk (some eo) = (sk2, none))
    (hrep : lookupKey eo.output_artifacts k = some us)
    (hsk : lookupKey sk k = some as) :
    lookupKey sk2 k = some us := by
  by_cases hsub : eo.output_artifacts.all (fun p => containsKey sk p.1) = true
  · have hmc : mergeChannels eo.output_artifacts sk = (sk2, none) := by
      simpa [mergeOutputArtifacts, hsub] using hmerge
    have hfst := mergeChannels_fst_of_none eo.output_artifacts sk (by rw [hmc])
    have h2 : sk2 = sk.map (mergedChannel eo.output_artifacts) := by
      rw [hmc] at hfst
      simpa using hfst
    rw [h2, lookupKey_map_mergedChannel, hsk]
    simp [mergedChannel, hrep]
  · simp [mergeOutputArtifacts, hsub] at hmerge

/-- Witness for `merge_overwrites_record_wholesale` at a concrete merge. -/
theorem merge_overwrites_record_wholesale_witness :
    lookupKey [("model", [artB])] "model" = some [artB] :=
  merge_overwrites_record_wholesale [("model", [artA])] [("model", [artB])]
    ⟨[("model", [artB])]⟩ "model" [artA] [artB] (by decide) (by decide) (by decide)

/-- Claim C3 (confirmed): a report channel absent from the skeleton makes
`publish_succeeded_execution` fail with the unknown-channel error before any
mutation: the caller's mapping is returned exactly as passed, the store is
untouched, and the error value carries the executor-output mapping (hence
every offending channel name) together with the skeleton. -/
theorem unknown_channel_aborts_unchanged (store : MetadataStore) (eid : Nat)
    (ctxs : List Context) (sk : Channels) (eo : ExecutorOutput)
    (h : eo.output_artifacts.all (fun p => containsKey sk p.1) = false) :
    publish_succeeded_execution store eid ctxs (some sk) (some eo)
      = (store, sk, some (PublishError.UnknownChannel eo.output_artifacts sk)) := by
  simp [publish_succeeded_execution, mergeOutputArtifacts, h]

/-- Witness for `unknown_channel_aborts_unchanged` at a concrete call. -/
theorem unknown_channel_aborts_unchanged_witness :
    publish_succeeded_execution store1 1 [] (some [("model", [artA])])
        (some ⟨[("extra", [artB])]⟩)
      = (store1, [("model", [artA])],
         some (PublishError.UnknownChannel [("extra", [artB])] [("model", [artA])])) :=
  unknown_channel_aborts_unchanged store1 1 [] [("model", [artA])]
    ⟨[("extra", [artB])]⟩ (by decide)

/-- Claim C6 (confirmed): when `publish_succeeded_execution` completes without
error, every artifact of the returned (and persisted) output mapping is LIVE;
and when no executor report was supplied the result is exactly the skeleton
with every artifact's state forced to LIVE — `markArtifactsLive` rebuilds each
artifact as `\x7b a with state := LIVE \x7d`, so no other field is altered. -/
theorem success_marks_all_outputs_live (store st2 : MetadataStore) (eid : Nat)
    (ctxs : List Context) (outs : Option Channels) (eo : Option ExecutorOutput)
    (arts2 : Channels)
    (h : publish_succeeded_execution store eid ctxs outs eo = (st2, arts2, none)) :
    allLive arts2 ∧ (eo = none → arts2 = markArtifactsLive (outs.getD [])) := by
  rcases hp : mergeOutputArtifacts (outs.getD []) eo with ⟨m, me⟩
  cases me with
  | some err => simp [publish_succeeded_execution, hp] at h
  | none =>
    have harts : arts2 = markArtifactsLive m := by
      rcases hl : get_executions_by_id store [eid] with _ | ⟨e1, _ | ⟨e2, t⟩⟩
      · simp [publish_succeeded_execution, hp, hl] at h
      · simp [publish_succeeded_execution, hp, hl] at h
        exact h.2.symm
      · simp [publish_succeeded_execution, hp, hl] at h
    constructor
    · rw [harts]
      exact allLive_markArtifactsLive m
    · intro heo
      subst heo
      simp only [mergeOutputArtifacts] at hp
      injection hp with hp1 hp2
      rw [harts, ← hp1]

/-- Witness for `success_marks_all_outputs_live` at a concrete call. -/
theorem success_marks_all_outputs_live_witness :
    allLive [("model", [⟨0, 1, "gs", [], ArtifactState.LIVE⟩])] ∧
      (some (ExecutorOutput.mk [("model", [artB])]) = none →
        [("model", [(⟨0, 1, "gs", [], ArtifactState.LIVE⟩ : ArtifactRecord)])]
          = markArtifactsLive ((some [("model", [artA])]).getD [])) :=
  success_marks_all_outputs_live store1
    ⟨[⟨1, 0, ExecutionState.COMPLETE, []⟩], 5,
      [⟨⟨1, 0, ExecutionState.COMPLETE, []⟩, [⟨9⟩], [],
        [("model", [⟨0, 1, "gs", [], ArtifactState.LIVE⟩])], EventType.OUTPUT⟩]⟩
    1 [⟨9⟩] (some [("model", [artA])]) (some ⟨[("model", [artB])]⟩)
    [("model", [⟨0, 1, "gs", [], ArtifactState.LIVE⟩])] (by decide)

/-- Claim C7 (confirmed): if the merge block raises, the whole call returns
before the execution is even looked up: the store value is returned untouched
— no put, no partial write — and the caller sees the merge error. -/
theorem merge_failure_leaves_store_untouched (store : MetadataStore) (eid : Nat)
    (ctxs : List Context) (outs : Option Channels) (eo : Option ExecutorOutput)
    (m : Channels) (err : PublishError)
    (h : mergeOutputArtifacts (outs.getD []) eo = (m, some err)) :
    publish_succeeded_execution store eid ctxs outs eo = (store, m, some err) := by
  simp [publish_succeeded_execution, h]

/-- Witness for `merge_failure_leaves_store_untouched` at a concrete call. -/
theorem merge_failure_leaves_store_untouched_witness :
    publish_succeeded_execution store1 1 [] (some [("a", [artA, artA])])
        (some ⟨[("a", [artB])]⟩)
      = (store1, [("a", [artA, artA])], some PublishError.PartialChannelUpdate) :=
  merge_failure_leaves_store_untouched store1 1 [] (some [("a", [artA, artA])])
    (some ⟨[("a", [artB])]⟩) [("a", [artA, artA])] PublishError.PartialChannelUpdate
    (by decide)

/-- Claim C2, counterexample: `publish_succeeded_execution` runs the merge
before looking the execution up, so with an unresolvable execution id AND an
invalid report the call fails with the merge error, not with the not-found
error: execution 3 does not exist in `store1`, yet the call below surfaces
the unknown-channel error. -/
theorem merge_error_preempts_not_found :
    (get_executions_by_id store1 [3]).length = 0 ∧
    (publish_succeeded_execution store1 3 [] none (some ⟨[("x", [artB])]⟩)).2.2
      = some (PublishError.UnknownChannel [("x", [artB])] []) ∧
    (publish_succeeded_execution store1 3 [] none (some ⟨[("x", [artB])]⟩)).2.2
      ≠ some PublishError.NotFound := by
  decide

/-- Claim C2 (amended): a lookup that does not resolve to exactly one stored
execution makes `publish_cached_execution`, `publish_failed_execution` and
`publish_internal_execution` fail with the not-found error unconditionally,
and makes `publish_succeeded_execution` fail with it whenever the merge block
passes (the merge runs first and its error preempts the lookup failure). -/
theorem missing_execution_fails_not_found (store : MetadataStore)
    (ctxs : List Context) (eid : Nat) (outs : Option Channels)
    (eo : Option ExecutorOutput)
    (h : (get_executions_by_id store [eid]).length ≠ 1) :
    (publish_cached_execution store ctxs eid outs).2 = some PublishError.NotFound ∧
    (publish_failed_execution store ctxs eid).2 = some PublishError.NotFound ∧
    (publish_internal_execution store ctxs eid outs).2 = some PublishError.NotFound ∧
    ((mergeOutputArtifacts (outs.getD []) eo).2 = none →
      (publish_succeeded_execution store eid ctxs outs eo).2.2
        = some PublishError.NotFound) := by
  rcases hl : get_executions_by_id store [eid] with _ | ⟨e1, _ | ⟨e2, t⟩⟩
  · refine ⟨by simp [publish_cached_execution, hl],
      by simp [publish_failed_execution, hl],
      by simp [publish_internal_execution, hl], ?_⟩
    intro hm
    obtain ⟨m, hm1⟩ : ∃ m, mergeOutputArtifacts (outs.getD []) eo = (m, none) :=
      ⟨(mergeOutputArtifacts (outs.getD []) eo).1, by rw [← hm]⟩
    simp [publish_succeeded_execution, hm1, hl]
  · rw [hl] at h
    simp at h
  · refine ⟨by simp [publish_cached_execution, hl],
      by simp [publish_failed_execution, hl],
      by simp [publish_internal_execution, hl], ?_⟩
    intro hm
    obtain ⟨m, hm1⟩ : ∃ m, mergeOutputArtifacts (outs.getD []) eo = (m, none) :=
      ⟨(mergeOutputArtifacts (outs.getD []) eo).1, by rw [← hm]⟩
    simp [publish_succeeded_execution, hm1, hl]

/-- Witness for `missing_execution_fails_not_found` at a concrete store. -/
theorem missing_execution_fails_not_found_witness :
    (publish_cached_execution store1 [] 3 none).2 = some PublishError.NotFound ∧
    (publish_failed_execution store1 [] 3).2 = some PublishError.NotFound ∧
    (publish_internal_execution store1 [] 3 none).2 = some PublishError.NotFound ∧
    ((mergeOutputArtifacts ((none : Option Channels).getD []) none).2 = none →
      (publish_succeeded_execution store1 3 [] none none).2.2
        = some PublishError.NotFound) :=
  missing_execution_fails_not_found store1 [] 3 none none (by decide)

/-- Claim C4, counterexample: channel "b" is present in both the skeleton and
the report with differing lengths (2 vs 1), yet the merge fails with the
type-mismatch error — channel "a", iterated first, fails its pair-wise type
check before the length check of "b" is ever reached. -/
theorem len_mismatch_masked_by_type_error :
    lookupKey [("a", [artA]), ("b", [artA, artA])] "b" = some [artA, artA] ∧
    lookupKey [("a", [artC]), ("b", [artB])] "b" = some [artB] ∧
    (mergeOutputArtifacts [("a", [artA]), ("b", [artA, artA])]
        (some ⟨[("a", [artC]), ("b", [artB])]⟩)).2
      = some PublishError.TypeMismatch := by
  decide

/-- Claim C4 (amended): a shared channel whose reported length differs from
its skeleton length (shorter or longer) makes `publish_succeeded_execution`
fail with the partial-channel-update error, provided no shared channel can
fail the pair-wise type check first (the source checks channels in skeleton
iteration order, and within a channel the length check before the pairs). -/
theorem len_mismatch_fails_incomplete_update (store : MetadataStore) (eid : Nat)
    (ctxs : List Context) (sk : Channels) (eo : ExecutorOutput)
    (hsub : eo.output_artifacts.all (fun p => containsKey sk p.1) = true)
    (htypes : sk.all (sharedTypesOk eo.output_artifacts) = true)
    (hmis : sk.any (sharedLengthMismatch eo.output_artifacts) = true) :
    (publish_succeeded_execution store eid ctxs (some sk) (some eo)).2.2
      = some PublishError.PartialChannelUpdate := by
  have hm := mergeChannels_snd_of_len_mismatch eo.output_artifacts sk htypes hmis
  have hpair : mergeChannels eo.output_artifacts sk
      = ((mergeChannels eo.output_artifacts sk).1,
         some PublishError.PartialChannelUpdate) := by
    rw [← hm]
  have hmo : mergeOutputArtifacts sk (some eo)
      = ((mergeChannels eo.output_artifacts sk).1,
         some PublishError.PartialChannelUpdate) := by
    rw [← hpair]
    simp [mergeOutputArtifacts, hsub]
  simp [publish_succeeded_execution, hmo]

/-- Witness for `len_mismatch_fails_incomplete_update` at a concrete call. -/
theorem len_mismatch_fails_incomplete_update_witness :
    (publish_succeeded_execution store1 1 [] (some [("b", [artA, artA])])
        (some ⟨[("b", [artB])]⟩)).2.2 = some PublishError.PartialChannelUpdate :=
  len_mismatch_fails_incomplete_update store1 1 [] [("b", [artA, artA])]
    ⟨[("b", [artB])]⟩ (by decide) (by decide) (by decide)

/-- Claim C5, counterexample: the positional pair of shared channel "b" has
differing type ids (1 vs 2), yet the merge fails with the
partial-channel-update error — channel "a", iterated first, fails its length
check before "b" is reached.  Pair matching is nonetheless index-aligned, as
`mergeArtifactPairs` walks the two lists positionally. -/
theorem type_mismatch_masked_by_len_error :
    artA.type_id = 1 ∧ artC.type_id = 2 ∧
    lookupKey [("a", [artA, artA]), ("b", [artA])] "b" = some [artA] ∧
    lookupKey [("a", [artB]), ("b", [artC])] "b" = some [artC] ∧
    (mergeOutputArtifacts [("a", [artA, artA]), ("b", [artA])]
        (some ⟨[("a", [artB]), ("b", [artC])]⟩)).2
      = some PublishError.PartialChannelUpdate := by
  decide

/-- Claim C5 (amended): a positional pair with differing type ids within a
shared channel makes `publish_succeeded_execution` fail with the
type-mismatch error, regardless of any other field of the pair, provided
every shared channel's lengths agree (a length mismatch in a channel iterated
earlier — or in the same channel — is raised first). -/
theorem type_mismatch_fails_type_error (store : MetadataStore) (eid : Nat)
    (ctxs : List Context) (sk : Channels) (eo : ExecutorOutput)
    (hsub : eo.output_artifacts.all (fun p => containsKey sk p.1) = true)
    (hlens : sk.all (sharedLengthsOk eo.output_artifacts) = true)
    (hmis : sk.any (sharedTypeMismatch eo.output_artifacts) = true) :
    (publish_succeeded_execution store eid ctxs (some sk) (some eo)).2.2
      = some PublishError.TypeMismatch := by
  have hm := mergeChannels_snd_of_type_mismatch eo.output_artifacts sk hlens hmis
  have hpair : mergeChannels eo.output_artifacts sk
      = ((mergeChannels eo.output_artifacts sk).1, some PublishError.TypeMismatch) := by
    rw [← hm]
  have hmo : mergeOutputArtifacts sk (some eo)
      = ((mergeChannels eo.output_artifacts sk).1, some PublishError.TypeMismatch) := by
    rw [← hpair]
    simp [mergeOutputArtifacts, hsub]
  simp [publish_succeeded_execution, hmo]

/-- Witness for `type_mismatch_fails_type_error` at a concrete call. -/
theorem type_mismatch_fails_type_error_witness :
    (publish_succeeded_execution store1 1 [] (some [("b", [artA])])
        (some ⟨[("b", [artC])]⟩)).2.2 = some PublishError.TypeMismatch :=
  type_mismatch_fails_type_error store1 1 [] [("b", [artA])]
    ⟨[("b", [artC])]⟩ (by decide) (by decide) (by decide)

/-- Claim C8, counterexample: `publish_internal_execution` completes
successfully on a PENDING artifact yet persists it with its state unchanged —
the source has no LIVE-marking loop on this path, so "every artifact in its
final output set has state = LIVE" fails: the put record below carries
`artA` still PENDING, while the event type and execution state match the
claim. -/
theorem internal_publish_artifact_not_live :
    (publish_internal_execution store1 [⟨9⟩] 1 (some [("meta", [artA])])).1.puts
      = [⟨⟨1, 0, ExecutionState.COMPLETE, []⟩, [⟨9⟩], [], [("meta", [artA])],
          EventType.INTERNAL_OUTPUT⟩] ∧
    (publish_internal_execution store1 [⟨9⟩] 1 (some [("meta", [artA])])).2 = none ∧
    artA.state ≠ ArtifactState.LIVE := by
  decide

/-- Claim C8 (amended): `publish_internal_execution` links its outputs with
INTERNAL_OUTPUT events instead of OUTPUT and sets the execution's last known
state to COMPLETE, but unlike the success path it performs no merge and no
LIVE marking: the output artifacts are persisted exactly as passed in,
keeping whatever state they had. -/
theorem internal_publish_keeps_artifact_state (store : MetadataStore)
    (ctxs : List Context) (eid : Nat) (outs : Option Channels) (ex : Execution)
    (hex : get_executions_by_id store [eid] = [ex]) (hid : ex.id ≠ 0) :
    (publish_internal_execution store ctxs eid outs).1.puts
      = store.puts ++ [⟨{ ex with last_known_state := ExecutionState.COMPLETE },
          ctxs, [], outs.getD [], EventType.INTERNAL_OUTPUT⟩] ∧
    (publish_internal_execution store ctxs eid outs).2 = none := by
  constructor
  · simp [publish_internal_execution, hex, put_execution, hid]
  · simp [publish_internal_execution, hex]

/-- Witness for `internal_publish_keeps_artifact_state` at a concrete call. -/
theorem internal_publish_keeps_artifact_state_witness :
    (publish_internal_execution store1 [⟨9⟩] 1 (some [("meta", [artA])])).1.puts
      = store1.puts ++ [⟨{ (⟨1, 0, ExecutionState.RUNNING, []⟩ : Execution) with
          last_known_state := ExecutionState.COMPLETE }, [⟨9⟩], [],
          (some [("meta", [artA])]).getD [], EventType.INTERNAL_OUTPUT⟩] ∧
    (publish_internal_execution store1 [⟨9⟩] 1 (some [("meta", [artA])])).2 = none :=
  internal_publish_keeps_artifact_state store1 [⟨9⟩] 1 (some [("meta", [artA])])
    ⟨1, 0, ExecutionState.RUNNING, []⟩ (by decide) (by decide)

/-- Claim C9 (confirmed): the per-operation execution states.
`register_execution` returns the persisted execution in state RUNNING with a
populated (nonzero) id; `publish_succeeded_execution` (when its merge passes)
and `publish_internal_execution` persist the execution as COMPLETE;
`publish_cached_execution` persists CACHED; `publish_failed_execution`
persists FAILED with empty artifact mappings in its put record, so no events
are created for it. -/
theorem state_machine_transitions (store : MetadataStore) (eid etype : Nat)
    (ctxs : List Context) (ins outs : Option Channels)
    (props : List (String × String)) (eo : Option ExecutorOutput) (ex : Execution)
    (hex : get_executions_by_id store [eid] = [ex]) (hid : ex.id ≠ 0)
    (hm : (mergeOutputArtifacts (outs.getD []) eo).2 = none) :
    (register_execution store etype ctxs ins props).2.last_known_state
        = ExecutionState.RUNNING ∧
    (register_execution store etype ctxs ins props).2.id ≠ 0 ∧
    (publish_succeeded_execution store eid ctxs outs eo).1.puts
      = store.puts ++ [⟨{ ex with last_known_state := ExecutionState.COMPLETE },
          ctxs, [], markArtifactsLive ((mergeOutputArtifacts (outs.getD []) eo).1),
          EventType.OUTPUT⟩] ∧
    (publish_internal_execution store ctxs eid outs).1.puts
      = store.puts ++ [⟨{ ex with last_known_state := ExecutionState.COMPLETE },
          ctxs, [], outs.getD [], EventType.INTERNAL_OUTPUT⟩] ∧
    (publish_cached_execution store ctxs eid outs).1.puts
      = store.puts ++ [⟨{ ex with last_known_state := ExecutionState.CACHED },
          ctxs, [], outs.getD [], EventType.OUTPUT⟩] ∧
    (publish_failed_execution store ctxs eid).1.puts
      = store.puts ++ [⟨{ ex with last_known_state := ExecutionState.FAILED },
          ctxs, [], [], EventType.OUTPUT⟩] := by
  obtain ⟨m, hm1⟩ : ∃ m, mergeOutputArtifacts (outs.getD []) eo = (m, none) :=
    ⟨(mergeOutputArtifacts (outs.getD []) eo).1, by rw [← hm]⟩
  refine ⟨?_, ?_, ?_, ?_, ?_, ?_⟩
  · simp [register_execution, prepare_execution, put_execution]
  · simp [register_execution, prepare_execution, put_execution]
  · rw [hm1]
    simp [publish_succeeded_execution, hm1, hex, put_execution, hid]
  · simp [publish_internal_execution, hex, put_execution, hid]
  · simp [publish_cached_execution, hex, put_execution, hid]
  · simp [publish_failed_execution, hex, put_execution, hid]

/-- Witness for `state_machine_transitions` at a concrete store. -/
theorem state_machine_transitions_witness :
    (register_execution store1 3 [⟨9⟩] none []).2.last_known_state
        = ExecutionState.RUNNING ∧
    (register_execution store1 3 [⟨9⟩] none []).2.id ≠ 0 ∧
    (publish_succeeded_execution store1 1 [⟨9⟩] none none).1.puts
      = store1.puts ++ [⟨{ (⟨1, 0, ExecutionState.RUNNING, []⟩ : Execution) with
          last_known_state := ExecutionState.COMPLETE }, [⟨9⟩], [],
          markArtifactsLive ((mergeOutputArtifacts
            ((none : Option Channels).getD []) none).1),
          EventType.OUTPUT⟩] ∧
    (publish_internal_execution store1 [⟨9⟩] 1 none).1.puts
      = store1.puts ++ [⟨{ (⟨1, 0, ExecutionState.RUNNING, []⟩ : Execution) with
          last_known_state := ExecutionState.COMPLETE }, [⟨9⟩], [],
          (none : Option Channels).getD [], EventType.INTERNAL_OUTPUT⟩] ∧
    (publish_cached_execution store1 [⟨9⟩] 1 none).1.puts
      = store1.puts ++ [⟨{ (⟨1, 0, ExecutionState.RUNNING, []⟩ : Execution) with
          last_known_state := ExecutionState.CACHED }, [⟨9⟩], [],
          (none : Option Channels).getD [], EventType.OUTPUT⟩] ∧
    (publish_failed_execution store1 [⟨9⟩] 1).1.puts
      = store1.puts ++ [⟨{ (⟨1, 0, ExecutionState.RUNNING, []⟩ : Execution) with
          last_known_state := ExecutionState.FAILED }, [⟨9⟩], [], [],
          EventType.OUTPUT⟩] :=
  state_machine_transitions store1 1 3 [⟨9⟩] none none [] none
    ⟨1, 0, ExecutionState.RUNNING, []⟩ (by decide) (by decide) (by decide)

/-- Claim C10 (confirmed): `publish_succeeded_execution` works on the
caller's mapping in place and never rolls mutations back.  Once the subset
check has passed, any raising call leaves the mapping in its mutated state:
if the raise is the not-found lookup failure (which the source reaches only
after merging and LIVE-marking) the caller's mapping is the fully merged,
fully LIVE mapping; if the raise is a merge error, the mapping splits into
the channels already processed — each shared one holding the copied
executor-reported records (`mergedChannel`) — the failing channel in some
intermediate state, and the untouched tail.  The store is never written. -/
theorem error_keeps_mutated_mapping (store st2 : MetadataStore) (eid : Nat)
    (ctxs : List Context) (sk sk2 : Channels) (eo : ExecutorOutput)
    (err : PublishError)
    (hsub : eo.output_artifacts.all (fun p => containsKey sk p.1) = true)
    (h : publish_succeeded_execution store eid ctxs (some sk) (some eo)
      = (st2, sk2, some err)) :
    st2 = store ∧
    ((err = PublishError.NotFound ∧
        sk2 = markArtifactsLive (sk.map (mergedChannel eo.output_artifacts)) ∧
        allLive sk2) ∨
      ∃ front p post as2,
        sk = front ++ p :: post ∧
        sk2 = front.map (mergedChannel eo.output_artifacts) ++ (p.1, as2) :: post) := by
  have hmo : mergeOutputArtifacts sk (some eo) = mergeChannels eo.output_artifacts sk := by
    simp [mergeOutputArtifacts, hsub]
  rcases hp : mergeChannels eo.output_artifacts sk with ⟨m, me⟩
  cases me with
  | some e =>
    have hps : publish_succeeded_execution store eid ctxs (some sk) (some eo)
        = (store, m, some e) := by
      simp [publish_succeeded_execution, hmo, hp]
    rw [hps] at h
    simp only [Prod.mk.injEq, Option.some.injEq] at h
    obtain ⟨h1, h2, h3⟩ := h
    refine ⟨h1.symm, Or.inr ?_⟩
    obtain ⟨front, p, post, as2, hsk, hsk2⟩ :=
      mergeChannels_err_split eo.output_artifacts sk m e hp
    exact ⟨front, p, post, as2, hsk, by rw [← h2]; exact hsk2⟩
  | none =>
    have hfst := mergeChannels_fst_of_none eo.output_artifacts sk (by rw [hp])
    have hm2 : m = sk.map (mergedChannel eo.output_artifacts) := by
      rw [hp] at hfst
      simpa using hfst
    rcases hl : get_executions_by_id store [eid] with _ | ⟨e1, _ | ⟨e2, t⟩⟩
    · have hps : publish_succeeded_execution store eid ctxs (some sk) (some eo)
          = (store, markArtifactsLive m, some PublishError.NotFound) := by
        simp [publish_succeeded_execution, hmo, hp, hl]
      rw [hps] at h
      simp only [Prod.mk.injEq, Option.some.injEq] at h
      obtain ⟨h1, h2, h3⟩ := h
      refine ⟨h1.symm, Or.inl ⟨h3.symm, ?_, ?_⟩⟩
      · rw [← h2, hm2]
      · rw [← h2]
        exact allLive_markArtifactsLive m
    · have hps : publish_succeeded_execution store eid ctxs (some sk) (some eo)
          = ((put_execution store
              { e1 with last_known_state := ExecutionState.COMPLETE }
              ctxs [] (markArtifactsLive m) EventType.OUTPUT).1,
             markArtifactsLive m, none) := by
        simp [publish_succeeded_execution, hmo, hp, hl]
      rw [hps] at h
      simp at h
    · have hps : publish_succeeded_execution store eid ctxs (some sk) (some eo)
          = (store, markArtifactsLive m, some PublishError.NotFound) := by
        simp [publish_succeeded_execution, hmo, hp, hl]
      rw [hps] at h
      simp only [Prod.mk.injEq, Option.some.injEq] at h
      obtain ⟨h1, h2, h3⟩ := h
      refine ⟨h1.symm, Or.inl ⟨h3.symm, ?_, ?_⟩⟩
      · rw [← h2, hm2]
      · rw [← h2]
        exact allLive_markArtifactsLive m

/-- Witness for `error_keeps_mutated_mapping`: channel "a" is merged (its
skeleton record replaced by the reported `artB`) before channel "b" raises
the type mismatch; the caller's mapping keeps the mutation. -/
theorem error_keeps_mutated_mapping_witness :
    store1 = store1 ∧
    ((PublishError.TypeMismatch = PublishError.NotFound ∧
        [("a", [artB]), ("b", [artA])]
          = markArtifactsLive ([("a", [artA]), ("b", [artA])].map
              (mergedChannel [("a", [artB]), ("b", [artC])])) ∧
        allLive [("a", [artB]), ("b", [artA])]) ∨
      ∃ front p post as2,
        [("a", [artA]), ("b", [artA])] = front ++ p :: post ∧
        [("a", [artB]), ("b", [artA])]
          = front.map (mergedChannel [("a", [artB]), ("b", [artC])])
              ++ (p.1, as2) :: post) :=
  error_keeps_mutated_mapping store1 store1 1 [] [("a", [artA]), ("b", [artA])]
    [("a", [artB]), ("b", [artA])] ⟨[("a", [artB]), ("b", [artC])]⟩
    PublishError.TypeMismatch (by decide) (by decide)
